import Mathlib

/-!
Shallow embedding of the NuttX SLIP driver (`drivers/net/slip.c`) and proofs
about its framing codec, receive state machine, task glue and initialization.

Bytes are modelled as `Nat` (the C code moves `uint8_t` values around without
arithmetic, so no wrap-around modelling is needed).  The serial wire is a
`List Nat` of bytes; a packet is a `List Nat` view of a driver buffer.
`pktsize` stands for `CONFIG_NET_SLIP_PKTSIZE` (the MTU); the receive and
transmit buffers hold `pktsize + 2` bytes.
-/

/-- SLIP special character `SLIP_END` (octal 0300 in slip.c, line 114). -/
def SLIP_END : Nat := 0xc0

/-- SLIP special character `SLIP_ESC` (octal 0333 in slip.c, line 115). -/
def SLIP_ESC : Nat := 0xdb

/-- SLIP special character `SLIP_ESC_END` (octal 0334 in slip.c, line 116). -/
def SLIP_ESC_END : Nat := 0xdc

/-- SLIP special character `SLIP_ESC_ESC` (octal 0335 in slip.c, line 117). -/
def SLIP_ESC_ESC : Nat := 0xdd

/-- TX poll delay in microseconds, `SLIP_WDDELAY` (slip.c, line 123). -/
def SLIP_WDDELAY : Nat := 1000000

/-- The scan loop of `slip_transmit` (slip.c, lines 308-369).  `run` is the
pending run of literal bytes delimited by the `start`/`len` pointers of the C
code: on an `SLIP_END` or `SLIP_ESC` input byte the run is flushed and the
two-byte escape sequence is written; at the end of the packet the remaining
run is flushed.  The returned list is the byte sequence written to the serial
device by the loop, in order. -/
def slip_transmit_scan : List Nat → List Nat → List Nat
  | run, [] => run
  | run, b :: rest =>
    if b = SLIP_END then
      run ++ SLIP_ESC :: SLIP_ESC_END :: slip_transmit_scan [] rest
    else if b = SLIP_ESC then
      run ++ SLIP_ESC :: SLIP_ESC_ESC :: slip_transmit_scan [] rest
    else
      slip_transmit_scan (run ++ [b]) rest

/-- The byte-level view of the encoder: the wire image of a single packet
byte.  `SLIP_END` and `SLIP_ESC` become two-byte escape sequences, every
other byte is transmitted literally. -/
def slip_escape_byte (b : Nat) : List Nat :=
  if b = SLIP_END then [SLIP_ESC, SLIP_ESC_END]
  else if b = SLIP_ESC then [SLIP_ESC, SLIP_ESC_ESC]
  else [b]

/-- Concatenated wire image of a packet body (no frame delimiters). -/
def slip_escape_bytes : List Nat → List Nat
  | [] => []
  | b :: rest => slip_escape_byte b ++ slip_escape_bytes rest

/-- The byte stream written to the serial device by `slip_transmit`
(slip.c, lines 282-377): a leading `SLIP_END`, the escaped packet body
produced by the scan loop, and a trailing `SLIP_END`. -/
def slip_transmit (pkt : List Nat) : List Nat :=
  SLIP_END :: slip_transmit_scan [] pkt ++ [SLIP_END]

/-- Driver flags shared between the tasks and the callbacks: `bifup` and
`txnodelay` of `struct slip_driver_s` (slip.c, lines 140-141). -/
structure LinkState where
  bifup : Bool
  txnodelay : Bool
deriving Repr, DecidableEq

/-- The driver-state effect of a completed `slip_transmit` call: line 375 of
slip.c sets `priv->txnodelay = true` just before returning OK. -/
def slip_transmit_post (s : LinkState) : LinkState :=
  { s with txnodelay := true }

/-- One iteration of the `slip_txtask` loop (slip.c, lines 458-510), reduced
to its scheduling skeleton: if `txnodelay` is clear the task sleeps
`SLIP_WDDELAY` microseconds, otherwise it clears the flag and proceeds at
once; it then polls the network only when the interface is up.  Returns the
updated state, the microseconds slept, and whether a poll was performed. -/
def slip_txtask_iter (s : LinkState) : LinkState × Nat × Bool :=
  if s.txnodelay then ({ s with txnodelay := false }, 0, s.bifup)
  else (s, SLIP_WDDELAY, s.bifup)

/-- The callback `slip_txavail` (slip.c, lines 865-880): when the interface is up it sets
`txnodelay` and signals the TX task (`nxsig_kill(priv->txpid, SIGALRM)`);
when the interface is down the notification is ignored.  The Bool result
records whether the TX task was signalled. -/
def slip_txavail (s : LinkState) : LinkState × Bool :=
  if s.bifup then ({ s with txnodelay := true }, true)
  else (s, false)

/-- Receive-side decoder state.  `assembling = false` is the top of the
`slip_rxtask` loop (slip.c, lines 679-718), where the next byte is dispatched
by the task itself; `assembling = true` is inside `slip_receive` (lines
553-642), with `escaped` true exactly between reading an `SLIP_ESC` and
reading the byte that follows it.  `rxbuf` holds the first `rxlen` bytes of
`priv->rxbuf`. -/
structure RxState where
  assembling : Bool
  escaped : Bool
  rxbuf : List Nat
deriving Repr, DecidableEq

/-- Result of one decoder step: the successor state, the completed packet if
this byte finished one, and whether the step logged the protocol-violation
error (slip.c, line 623). -/
structure RxStep where
  state : RxState
  emit : Option (List Nat)
  violation : Bool
deriving Repr, DecidableEq

/-- The guarded store of `slip_receive`'s default case (slip.c, lines
632-639): the byte is appended only while `rxlen` is below the buffer
capacity `CONFIG_NET_SLIP_PKTSIZE + 2`; beyond that it is dropped. -/
def slip_store (pktsize : Nat) (rxbuf : List Nat) (ch : Nat) : List Nat :=
  if rxbuf.length < pktsize + 2 then rxbuf ++ [ch] else rxbuf

/-- One byte of the receive pipeline, combining the first-byte dispatch of
`slip_rxtask` (slip.c, lines 699-712) with the `slip_receive` state machine
(lines 563-641), for an interface that is up:

* not assembling (rxtask loop top): `SLIP_END` resets `rxlen` to 0 and enters
  `slip_receive`; any other byte — `SLIP_ESC` included — is stored at
  `rxbuf[0]` with `rxlen = 1` and `slip_receive` is entered;
* assembling, escaped: `SLIP_ESC_END`/`SLIP_ESC_ESC` store a literal
  `SLIP_END`/`SLIP_ESC`; any other byte is a logged protocol violation and is
  stored unchanged; all three return to the non-escaped state;
* assembling, not escaped: `SLIP_END` completes the packet when `rxlen > 0`
  (returning control to the rxtask loop) and is ignored when `rxlen = 0`;
  `SLIP_ESC` enters the escaped state without storing; any other byte is
  stored subject to capacity. -/
def slip_rx_step (pktsize : Nat) (s : RxState) (ch : Nat) : RxStep :=
  if s.assembling = false then
    if ch = SLIP_END then ⟨⟨true, false, []⟩, none, false⟩
    else ⟨⟨true, false, [ch]⟩, none, false⟩
  else if s.escaped then
    if ch = SLIP_ESC_END then
      ⟨⟨true, false, slip_store pktsize s.rxbuf SLIP_END⟩, none, false⟩
    else if ch = SLIP_ESC_ESC then
      ⟨⟨true, false, slip_store pktsize s.rxbuf SLIP_ESC⟩, none, false⟩
    else
      ⟨⟨true, false, slip_store pktsize s.rxbuf ch⟩, none, true⟩
  else if ch = SLIP_END then
    if s.rxbuf.length > 0 then ⟨⟨false, false, s.rxbuf⟩, some s.rxbuf, false⟩
    else ⟨s, none, false⟩
  else if ch = SLIP_ESC then ⟨⟨true, true, s.rxbuf⟩, none, false⟩
  else ⟨⟨true, false, slip_store pktsize s.rxbuf ch⟩, none, false⟩

/-- Run the receive pipeline over a finite byte stream, collecting the
completed packets in order. -/
def slip_rx_run (pktsize : Nat) (s : RxState) : List Nat → RxState × List (List Nat)
  | [] => (s, [])
  | ch :: rest =>
    let st := slip_rx_step pktsize s ch
    let r := slip_rx_run pktsize st.state rest
    (r.1, st.emit.toList ++ r.2)

/-- Decoder start state: rxtask loop top, no assembly in progress. -/
def slip_rx_init : RxState := ⟨false, false, []⟩

/-- The packets the receive pipeline yields for a byte stream, starting with
no assembly in progress. -/
def slip_decode (pktsize : Nat) (input : List Nat) : List (List Nat) :=
  (slip_rx_run pktsize slip_rx_init input).2

/-- Modelled from the spec: the IP version constants used by `slip_rxtask`
(`IP_VERSION_MASK`, `IPv4_VERSION`, `IPv6_VERSION` come from
`nuttx/net/ip.h`, which is not part of the examined sources).  The spec says
the first header byte's version field selects IPv4 or IPv6; the version field
is the top nibble of the first byte, 4 for IPv4 and 6 for IPv6. -/
def IP_VERSION_MASK : Nat := 0xf0

/-- Modelled from the spec: version-field value of an IPv4 header byte. -/
def IPv4_VERSION : Nat := 0x40

/-- Modelled from the spec: version-field value of an IPv6 header byte. -/
def IPv6_VERSION : Nat := 0x60

/-- Observable outcome of the packet-dispatch section of `slip_rxtask`
(slip.c, lines 722-776) for one completed packet. -/
structure RxIpResult where
  ipv4Calls : Nat
  ipv6Calls : Nat
  rxErrors : Nat
  wire : List Nat
  txnodelay : Bool
  d_len : Nat
deriving Repr, DecidableEq

/-- The packet-dispatch section of `slip_rxtask` (slip.c, lines 722-776).
`ipv4_input`/`ipv6_input` are oracles for the external stack entry points:
they map the delivered packet to the reply the stack leaves in the same
buffer (the empty list meaning `d_len == 0`, no reply).  When the version
field of the first byte matches IPv4 or IPv6 the matching input function is
called and a non-empty reply is transmitted inline with `slip_transmit`
(which sets `txnodelay`); otherwise `NETDEV_RXERRORS` counts the packet and
nothing else happens.  `errors` and `txnd` are the error counter and
`txnodelay` flag before the call. -/
def slip_rxtask_process (ipv4_input ipv6_input : List Nat → List Nat)
    (errors : Nat) (txnd : Bool) (pkt : List Nat) : RxIpResult :=
  let vhl := pkt.headD 0
  if vhl &&& IP_VERSION_MASK = IPv4_VERSION then
    let reply := ipv4_input pkt
    if reply.length > 0 then
      ⟨1, 0, errors, slip_transmit reply, true, reply.length⟩
    else
      ⟨1, 0, errors, [], txnd, 0⟩
  else if vhl &&& IP_VERSION_MASK = IPv6_VERSION then
    let reply := ipv6_input pkt
    if reply.length > 0 then
      ⟨0, 1, errors, slip_transmit reply, true, reply.length⟩
    else
      ⟨0, 1, errors, [], txnd, 0⟩
  else
    ⟨0, 0, errors + 1, [], txnd, pkt.length⟩

/-- Resource/status outcome of ` slip_initialize` (slip.c, lines 964-1050).
`fdOpen` is true when the TTY file descriptor opened by `nx_open` is still
open when the function returns (on success line 1048 closes it after the
tasks dup it); `rxStarted`/`txStarted` record which kernel threads are
running at return; `registered` records the `netdev_register` call. -/
structure InitOutcome where
  ret : Int
  fdOpen : Bool
  rxStarted : Bool
  txStarted : Bool
  registered : Bool
deriving Repr, DecidableEq

/-- Control flow of ` slip_initialize` (slip.c, lines 964-1050) over the
results of its three fallible external calls: `nx_open` (line 989),
`kthread_create` for the RX task (line 1007) and `kthread_create` for the TX
task (line 1022).  Each failure path returns the negative result directly;
none of them closes the already-opened file descriptor or stops the
already-started RX task. -/
def slip_initialize (openRet rxRet txRet : Int) : InitOutcome :=
  if openRet < 0 then ⟨openRet, false, false, false, false⟩
  else if rxRet < 0 then ⟨rxRet, true, false, false, false⟩
  else if txRet < 0 then ⟨txRet, true, true, false, false⟩
  else ⟨0, false, true, true, true⟩

/-- The escaping claim exactly as stated for a byte stream: every occurrence
of a literal `SLIP_END` or `SLIP_ESC` is part of an escape pair — either it
is an `SLIP_ESC` immediately followed by `SLIP_ESC_END` or `SLIP_ESC_ESC`,
or it is the second byte of such a pair. -/
def no_literal_specials (out : List Nat) : Prop :=
  ∀ i : Fin out.length, (out.get i = SLIP_END ∨ out.get i = SLIP_ESC) →
    (out.get i = SLIP_ESC ∧ ∃ j : Fin out.length, j.val = i.val + 1 ∧
        (out.get j = SLIP_ESC_END ∨ out.get j = SLIP_ESC_ESC)) ∨
    (∃ j : Fin out.length, j.val + 1 = i.val ∧ out.get j = SLIP_ESC)

instance (out : List Nat) : Decidable (no_literal_specials out) := by
  unfold no_literal_specials
  infer_instance

/-- A well-escaped packet body: no literal `SLIP_END`, and every `SLIP_ESC`
is immediately followed by `SLIP_ESC_END` or `SLIP_ESC_ESC`, the pair being
consumed together. -/
def wellEscapedBody : List Nat → Prop
  | [] => True
  | b :: rest =>
    if b = SLIP_ESC then
      match rest with
      | [] => False
      | b2 :: rest2 =>
        (b2 = SLIP_ESC_END ∨ b2 = SLIP_ESC_ESC) ∧ wellEscapedBody rest2
    else b ≠ SLIP_END ∧ wellEscapedBody rest

/-! ## Helper lemmas shared by the claim proofs -/

theorem slip_byte_ne_end_esc : SLIP_ESC_END ≠ SLIP_END ∧ SLIP_ESC_END ≠ SLIP_ESC ∧
    SLIP_ESC_ESC ≠ SLIP_END ∧ SLIP_ESC_ESC ≠ SLIP_ESC ∧ SLIP_ESC ≠ SLIP_END := by
  decide

theorem slip_rx_step_idle_end (pktsize : Nat) (e : Bool) (buf : List Nat) :
    slip_rx_step pktsize ⟨false, e, buf⟩ SLIP_END = ⟨⟨true, false, []⟩, none, false⟩ := by
  simp [slip_rx_step]

theorem slip_rx_step_idle_other (pktsize : Nat) (e : Bool) (buf : List Nat) (ch : Nat)
    (h : ch ≠ SLIP_END) :
    slip_rx_step pktsize ⟨false, e, buf⟩ ch = ⟨⟨true, false, [ch]⟩, none, false⟩ := by
  simp [slip_rx_step, h]

theorem slip_rx_step_normal_end_pos (pktsize : Nat) (buf : List Nat) (h : 0 < buf.length) :
    slip_rx_step pktsize ⟨true, false, buf⟩ SLIP_END = ⟨⟨false, false, buf⟩, some buf, false⟩ := by
  simp [slip_rx_step, h]

theorem slip_rx_step_normal_end_nil (pktsize : Nat) :
    slip_rx_step pktsize ⟨true, false, []⟩ SLIP_END = ⟨⟨true, false, []⟩, none, false⟩ := by
  simp [slip_rx_step]

theorem slip_rx_step_normal_esc (pktsize : Nat) (buf : List Nat) :
    slip_rx_step pktsize ⟨true, false, buf⟩ SLIP_ESC = ⟨⟨true, true, buf⟩, none, false⟩ := by
  simp [slip_rx_step, SLIP_END, SLIP_ESC]

theorem slip_rx_step_normal_store (pktsize : Nat) (buf : List Nat) (ch : Nat)
    (h1 : ch ≠ SLIP_END) (h2 : ch ≠ SLIP_ESC) :
    slip_rx_step pktsize ⟨true, false, buf⟩ ch =
      ⟨⟨true, false, slip_store pktsize buf ch⟩, none, false⟩ := by
  simp [slip_rx_step, h1, h2]

theorem slip_rx_step_escaped_end (pktsize : Nat) (buf : List Nat) :
    slip_rx_step pktsize ⟨true, true, buf⟩ SLIP_ESC_END =
      ⟨⟨true, false, slip_store pktsize buf SLIP_END⟩, none, false⟩ := by
  simp [slip_rx_step]

theorem slip_rx_step_escaped_esc (pktsize : Nat) (buf : List Nat) :
    slip_rx_step pktsize ⟨true, true, buf⟩ SLIP_ESC_ESC =
      ⟨⟨true, false, slip_store pktsize buf SLIP_ESC⟩, none, false⟩ := by
  simp [slip_rx_step, SLIP_ESC_END, SLIP_ESC_ESC]

theorem slip_rx_step_escaped_other (pktsize : Nat) (buf : List Nat) (ch : Nat)
    (h1 : ch ≠ SLIP_ESC_END) (h2 : ch ≠ SLIP_ESC_ESC) :
    slip_rx_step pktsize ⟨true, true, buf⟩ ch =
      ⟨⟨true, false, slip_store pktsize buf ch⟩, none, true⟩ := by
  simp [slip_rx_step, h1, h2]

theorem slip_rx_run_cons (pktsize : Nat) (s : RxState) (ch : Nat) (rest : List Nat) :
    slip_rx_run pktsize s (ch :: rest) =
      ((slip_rx_run pktsize (slip_rx_step pktsize s ch).state rest).1,
       (slip_rx_step pktsize s ch).emit.toList ++
         (slip_rx_run pktsize (slip_rx_step pktsize s ch).state rest).2) := by
  simp [slip_rx_run]

theorem slip_store_room (pktsize : Nat) (buf : List Nat) (ch : Nat)
    (h : buf.length < pktsize + 2) :
    slip_store pktsize buf ch = buf ++ [ch] := by
  simp [slip_store, h]

theorem slip_store_full (pktsize : Nat) (buf : List Nat) (ch : Nat)
    (h : ¬ buf.length < pktsize + 2) :
    slip_store pktsize buf ch = buf := by
  simp [slip_store, h]

theorem slip_transmit_scan_eq (pkt : List Nat) :
    ∀ run : List Nat, slip_transmit_scan run pkt = run ++ slip_escape_bytes pkt := by
  induction pkt with
  | nil => intro run; simp [slip_transmit_scan, slip_escape_bytes]
  | cons b rest ih =>
    intro run
    by_cases hE : b = SLIP_END
    · simp [slip_transmit_scan, slip_escape_bytes, slip_escape_byte, hE, ih]
    · by_cases hS : b = SLIP_ESC
      · subst hS
        simp [slip_transmit_scan, slip_escape_bytes, slip_escape_byte,
          slip_byte_ne_end_esc.2.2.2.2, ih]
      · simp [slip_transmit_scan, slip_escape_bytes, slip_escape_byte, hE, hS, ih]

theorem slip_transmit_eq (pkt : List Nat) :
    slip_transmit pkt = SLIP_END :: (slip_escape_bytes pkt ++ [SLIP_END]) := by
  simp [slip_transmit, slip_transmit_scan_eq]

theorem slip_rx_run_append (pktsize : Nat) (xs : List Nat) :
    ∀ (s : RxState) (ys : List Nat),
      slip_rx_run pktsize s (xs ++ ys) =
        ((slip_rx_run pktsize (slip_rx_run pktsize s xs).1 ys).1,
         (slip_rx_run pktsize s xs).2 ++
           (slip_rx_run pktsize (slip_rx_run pktsize s xs).1 ys).2) := by
  induction xs with
  | nil => intro s ys; simp [slip_rx_run]
  | cons ch rest ih =>
    intro s ys
    simp [slip_rx_run, ih]

theorem slip_rx_run_body (pktsize : Nat) (P : List Nat) :
    ∀ acc : List Nat, acc.length + P.length ≤ pktsize + 2 →
      slip_rx_run pktsize ⟨true, false, acc⟩ (slip_escape_bytes P) =
        (⟨true, false, acc ++ P⟩, []) := by
  induction P with
  | nil => intro acc _; simp [slip_escape_bytes, slip_rx_run]
  | cons b rest ih =>
    intro acc hlen
    have hroom : acc.length < pktsize + 2 := by
      simp at hlen; omega
    have hlen' : (acc ++ [b]).length + rest.length ≤ pktsize + 2 := by
      simp at hlen ⊢; omega
    have ihb := ih (acc ++ [b]) hlen'
    by_cases hE : b = SLIP_END
    · subst hE
      rw [show slip_escape_bytes (SLIP_END :: rest) =
            SLIP_ESC :: SLIP_ESC_END :: slip_escape_bytes rest by
          simp [slip_escape_bytes, slip_escape_byte]]
      rw [slip_rx_run_cons, slip_rx_step_normal_esc]
      rw [slip_rx_run_cons, slip_rx_step_escaped_end, slip_store_room _ _ _ hroom]
      simp [ihb]
    · by_cases hS : b = SLIP_ESC
      · subst hS
        rw [show slip_escape_bytes (SLIP_ESC :: rest) =
              SLIP_ESC :: SLIP_ESC_ESC :: slip_escape_bytes rest by
            simp [slip_escape_bytes, slip_escape_byte, slip_byte_ne_end_esc.2.2.2.2]]
        rw [slip_rx_run_cons, slip_rx_step_normal_esc]
        rw [slip_rx_run_cons, slip_rx_step_escaped_esc, slip_store_room _ _ _ hroom]
        simp [ihb]
      · rw [show slip_escape_bytes (b :: rest) = b :: slip_escape_bytes rest by
            simp [slip_escape_bytes, slip_escape_byte, hE, hS]]
        rw [slip_rx_run_cons, slip_rx_step_normal_store _ _ _ hE hS,
          slip_store_room _ _ _ hroom]
        simp [ihb]

theorem slip_rx_run_fill (pktsize b : Nat) (hb1 : b ≠ SLIP_END) (hb2 : b ≠ SLIP_ESC) :
    ∀ (n : Nat) (acc : List Nat),
      slip_rx_run pktsize ⟨true, false, acc⟩ (List.replicate n b) =
        (⟨true, false, acc ++ List.replicate (min n (pktsize + 2 - acc.length)) b⟩, []) := by
  intro n
  induction n with
  | zero => intro acc; simp [slip_rx_run]
  | succ m ih =>
    intro acc
    rw [List.replicate_succ, slip_rx_run_cons, slip_rx_step_normal_store _ _ _ hb1 hb2]
    by_cases hroom : acc.length < pktsize + 2
    · rw [slip_store_room _ _ _ hroom]
      rw [ih (acc ++ [b])]
      have harith : min (m + 1) (pktsize + 2 - acc.length) =
          min m (pktsize + 2 - (acc ++ [b]).length) + 1 := by
        simp only [List.length_append, List.length_singleton]
        omega
      rw [harith, List.replicate_succ]
      simp
    · rw [slip_store_full _ _ _ hroom]
      rw [ih acc]
      have harith : min (m + 1) (pktsize + 2 - acc.length) =
          min m (pktsize + 2 - acc.length) := by omega
      rw [harith]
      simp

theorem slip_rx_run_all_ends (pktsize : Nat) :
    ∀ n : Nat, slip_rx_run pktsize ⟨true, false, []⟩ (List.replicate n SLIP_END) =
      (⟨true, false, []⟩, []) := by
  intro n
  induction n with
  | zero => simp [slip_rx_run]
  | succ m ih =>
    rw [List.replicate_succ, slip_rx_run_cons, slip_rx_step_normal_end_nil, ih]
    simp

theorem slip_escape_bytes_wellEscaped (P : List Nat) :
    wellEscapedBody (slip_escape_bytes P) := by
  induction P with
  | nil => simp [slip_escape_bytes, wellEscapedBody]
  | cons b rest ih =>
    by_cases hE : b = SLIP_END
    · subst hE
      rw [show slip_escape_bytes (SLIP_END :: rest) =
            SLIP_ESC :: SLIP_ESC_END :: slip_escape_bytes rest by
          simp [slip_escape_bytes, slip_escape_byte]]
      simp [wellEscapedBody, ih]
    · by_cases hS : b = SLIP_ESC
      · subst hS
        rw [show slip_escape_bytes (SLIP_ESC :: rest) =
              SLIP_ESC :: SLIP_ESC_ESC :: slip_escape_bytes rest by
            simp [slip_escape_bytes, slip_escape_byte, slip_byte_ne_end_esc.2.2.2.2]]
        simp [wellEscapedBody, ih]
      · rw [show slip_escape_bytes (b :: rest) = b :: slip_escape_bytes rest by
            simp [slip_escape_bytes, slip_escape_byte, hE, hS]]
        cases ht : slip_escape_bytes rest with
        | nil => simp [wellEscapedBody, hE, hS]
        | cons x xs =>
          rw [ht] at ih
          simp [wellEscapedBody, hE, hS, ih]

theorem slip_store_length (pktsize : Nat) (buf : List Nat) (ch : Nat)
    (h : buf.length ≤ pktsize + 2) :
    (slip_store pktsize buf ch).length ≤ pktsize + 2 := by
  unfold slip_store
  split
  · simp; omega
  · exact h

/-! ## Claim C1 — round trip -/

/-- C1, as stated, is false at the zero-length packet: `slip_transmit []`
emits the two idle `SLIP_END` bytes, and the decoder's idle suppression
yields zero packets rather than the empty packet back. -/
theorem slip_c1_counterexample :
    ¬ (slip_decode 296 (slip_transmit []) = [([] : List Nat)]) := by
  decide

/-- C1 (amended): for every packet P with 1 ≤ length ≤ MTU, feeding the byte
stream produced by `slip_transmit` into the receive pipeline, starting with
no assembly in progress, yields exactly P back. -/
theorem slip_round_trip (pktsize : Nat) (P : List Nat)
    (h1 : 1 ≤ P.length) (h2 : P.length ≤ pktsize) :
    slip_decode pktsize (slip_transmit P) = [P] := by
  have hbody : slip_rx_run pktsize ⟨true, false, []⟩ (slip_escape_bytes P) =
      (⟨true, false, P⟩, []) := by
    simpa using slip_rx_run_body pktsize P [] (by simp; omega)
  have hlast : slip_rx_run pktsize ⟨true, false, P⟩ [SLIP_END] =
      (⟨false, false, P⟩, [P]) := by
    rw [slip_rx_run_cons, slip_rx_step_normal_end_pos pktsize P (by omega)]
    simp [slip_rx_run]
  unfold slip_decode slip_rx_init
  rw [slip_transmit_eq, slip_rx_run_cons, slip_rx_step_idle_end]
  simp only []
  rw [slip_rx_run_append, hbody, hlast]
  simp

/-- Witness for C1 at a concrete three-byte packet holding both special
bytes. -/
theorem slip_round_trip_witness :
    slip_decode 296 (slip_transmit [0xc0, 0x41, 0xdb]) = [[0xc0, 0x41, 0xdb]] :=
  slip_round_trip 296 [0xc0, 0x41, 0xdb] (by decide) (by decide)

/-! ## Claim C2 — escaping -/

/-- C2, as stated, is false: the frame-delimiting `SLIP_END` bytes written by
`slip_transmit` are literal END bytes that are not part of any escape pair —
already for the packet `[0x41]`, whose wire image starts with `SLIP_END`. -/
theorem slip_c2_counterexample : ¬ no_literal_specials (slip_transmit [0x41]) := by
  decide

/-- C2 (amended): the encoder's output is a leading `SLIP_END`, the escaped
body, and a trailing `SLIP_END`; apart from those two frame delimiters the
body contains no literal `SLIP_END`, and every `SLIP_ESC` in it is
immediately followed by `SLIP_ESC_END` or `SLIP_ESC_ESC`. -/
theorem slip_transmit_escaping (P : List Nat) :
    slip_transmit P = SLIP_END :: (slip_escape_bytes P ++ [SLIP_END]) ∧
    wellEscapedBody (slip_escape_bytes P) :=
  ⟨slip_transmit_eq P, slip_escape_bytes_wellEscaped P⟩

/-! ## Claim C3 — ESC handling in the Normal state -/

/-- C3, as stated, is false: when `SLIP_ESC` is the first byte of a new
assembly (no assembly in progress), `slip_rxtask` stores the ESC byte itself
at `rxbuf[0]` instead of switching to the Escaped state, so the stream
`ESC, ESC_END, END` decodes to the two raw bytes rather than to `[SLIP_END]`. -/
theorem slip_c3_counterexample :
    (slip_rx_step 296 slip_rx_init SLIP_ESC).state.rxbuf = [SLIP_ESC] ∧
    slip_decode 296 [SLIP_ESC, SLIP_ESC_END, SLIP_END] = [[SLIP_ESC, SLIP_ESC_END]] := by
  decide

/-- C3 (amended): while assembly is in progress, an `SLIP_ESC` byte in the
Normal state switches the decoder to the Escaped state without storing the
byte; but when `SLIP_ESC` arrives with no assembly in progress, the rxtask
dispatch stores it literally at offset 0 and assembly starts in the Normal
state. -/
theorem slip_rx_esc_transition (pktsize : Nat) (s : RxState) :
    (s.assembling = true → s.escaped = false →
      slip_rx_step pktsize s SLIP_ESC = ⟨⟨true, true, s.rxbuf⟩, none, false⟩) ∧
    (s.assembling = false →
      slip_rx_step pktsize s SLIP_ESC = ⟨⟨true, false, [SLIP_ESC]⟩, none, false⟩) := by
  obtain ⟨a, e, buf⟩ := s
  constructor
  · intro h1 h2
    simp only at h1 h2
    subst h1; subst h2
    exact slip_rx_step_normal_esc pktsize buf
  · intro h1
    simp only at h1
    subst h1
    exact slip_rx_step_idle_other pktsize e buf SLIP_ESC slip_byte_ne_end_esc.2.2.2.2

/-- Witness for C3 at concrete states: mid-assembly and idle. -/
theorem slip_rx_esc_transition_witness :
    slip_rx_step 296 ⟨true, false, [0x41]⟩ SLIP_ESC =
      ⟨⟨true, true, [0x41]⟩, none, false⟩ ∧
    slip_rx_step 296 ⟨false, false, []⟩ SLIP_ESC =
      ⟨⟨true, false, [SLIP_ESC]⟩, none, false⟩ :=
  ⟨(slip_rx_esc_transition 296 ⟨true, false, [0x41]⟩).1 rfl rfl,
   (slip_rx_esc_transition 296 ⟨false, false, []⟩).2 rfl⟩

/-! ## Claim C4 — lenient recovery from a bad escape continuation -/

/-- C4: in the Escaped state, a byte that is neither `SLIP_ESC_END` nor
`SLIP_ESC_ESC` is reported as a protocol violation, appended literally to the
packet (room permitting), and the decoder returns to Normal; in particular
the framed sequence `ESC, 0x41` decodes to the one-byte packet `[0x41]` and
decoding continues without fault. -/
theorem slip_rx_lenient_recovery :
    (∀ (pktsize : Nat) (s : RxState) (ch : Nat),
      s.assembling = true → s.escaped = true →
      ch ≠ SLIP_ESC_END → ch ≠ SLIP_ESC_ESC →
      s.rxbuf.length < pktsize + 2 →
      slip_rx_step pktsize s ch = ⟨⟨true, false, s.rxbuf ++ [ch]⟩, none, true⟩) ∧
    (∀ pktsize : Nat,
      slip_decode pktsize [SLIP_END, SLIP_ESC, 0x41, SLIP_END] = [[0x41]]) := by
  constructor
  · intro pktsize s ch h1 h2 h3 h4 h5
    obtain ⟨a, e, buf⟩ := s
    simp only at h1 h2 h5
    subst h1; subst h2
    rw [slip_rx_step_escaped_other pktsize buf ch h3 h4, slip_store_room pktsize buf ch h5]
  · intro pktsize
    have h1 : slip_rx_run pktsize ⟨true, false, ([0x41] : List Nat)⟩ [SLIP_END] =
        (⟨false, false, [0x41]⟩, [[0x41]]) := by
      rw [slip_rx_run_cons, slip_rx_step_normal_end_pos pktsize [0x41] (by simp)]
      simp [slip_rx_run]
    have h2 : slip_rx_run pktsize ⟨true, true, ([] : List Nat)⟩ [(0x41 : Nat), SLIP_END] =
        (⟨false, false, [0x41]⟩, [[0x41]]) := by
      rw [slip_rx_run_cons,
        slip_rx_step_escaped_other pktsize [] 0x41 (by decide) (by decide),
        slip_store_room pktsize [] 0x41 (by simp)]
      simpa using h1
    have h3 : slip_rx_run pktsize ⟨true, false, ([] : List Nat)⟩
        [SLIP_ESC, (0x41 : Nat), SLIP_END] = (⟨false, false, [0x41]⟩, [[0x41]]) := by
      rw [slip_rx_run_cons, slip_rx_step_normal_esc]
      simpa using h2
    unfold slip_decode slip_rx_init
    rw [slip_rx_run_cons, slip_rx_step_idle_end]
    simp [h3]

/-- Witness for C4: a bad escape continuation at a concrete state, and the
concrete framed `ESC, 0x41` stream. -/
theorem slip_rx_lenient_recovery_witness :
    slip_rx_step 296 ⟨true, true, []⟩ 0x41 = ⟨⟨true, false, [0x41]⟩, none, true⟩ ∧
    slip_decode 296 [SLIP_END, SLIP_ESC, 0x41, SLIP_END] = [[0x41]] := by
  refine ⟨?_, slip_rx_lenient_recovery.2 296⟩
  have h := slip_rx_lenient_recovery.1 296 ⟨true, true, []⟩ 0x41 rfl rfl
    (by decide) (by decide) (by decide)
  simpa using h

/-! ## Claim C5 — capacity invariant and truncation -/

/-- C5: the receive-buffer length never exceeds the capacity
`CONFIG_NET_SLIP_PKTSIZE + 2` — every decoder step preserves the bound, a
storable byte arriving at a full buffer is dropped with no packet emitted and
no fault — and feeding MTU + 2 + 10 unescaped bytes followed by `SLIP_END`
yields exactly one packet truncated at MTU + 2 bytes. -/
theorem slip_rx_capacity :
    (∀ (pktsize : Nat) (s : RxState) (ch : Nat),
      s.rxbuf.length ≤ pktsize + 2 →
      ((slip_rx_step pktsize s ch).state.rxbuf.length ≤ pktsize + 2 ∧
       (s.assembling = true → s.escaped = false → ch ≠ SLIP_END → ch ≠ SLIP_ESC →
        s.rxbuf.length = pktsize + 2 →
        slip_rx_step pktsize s ch = ⟨⟨true, false, s.rxbuf⟩, none, false⟩))) ∧
    (∀ pktsize : Nat,
      slip_decode pktsize (List.replicate (pktsize + 2 + 10) 0x41 ++ [SLIP_END]) =
        [List.replicate (pktsize + 2) 0x41]) := by
  constructor
  · intro pktsize s ch hle
    obtain ⟨a, e, buf⟩ := s
    constructor
    · cases a with
      | false =>
        by_cases hE : ch = SLIP_END
        · simp [slip_rx_step_idle_end, hE]
        · simp [slip_rx_step_idle_other pktsize e buf ch hE]
      | true =>
        cases e with
        | true =>
          by_cases hDC : ch = SLIP_ESC_END
          · simp only at hle
            simp [slip_rx_step_escaped_end, hDC, slip_store_length pktsize buf _ hle]
          · by_cases hDD : ch = SLIP_ESC_ESC
            · simp only at hle
              simp [slip_rx_step_escaped_esc, hDD, slip_store_length pktsize buf _ hle]
            · simp only at hle
              simp [slip_rx_step_escaped_other pktsize buf ch hDC hDD,
                slip_store_length pktsize buf ch hle]
        | false =>
          by_cases hE : ch = SLIP_END
          · subst hE
            rcases Nat.eq_zero_or_pos buf.length with hz | hp
            · rw [List.length_eq_zero] at hz
              subst hz
              rw [slip_rx_step_normal_end_nil]
              simp
            · simp only at hle
              simp [slip_rx_step_normal_end_pos pktsize buf hp, hle]
          · by_cases hS : ch = SLIP_ESC
            · subst hS
              rw [slip_rx_step_normal_esc]
              simpa using hle
            · simp only at hle
              simp [slip_rx_step_normal_store pktsize buf ch hE hS,
                slip_store_length pktsize buf ch hle]
    · intro ha he hE hS hfull
      simp only at ha he hfull
      subst ha; subst he
      rw [slip_rx_step_normal_store pktsize buf ch hE hS,
        slip_store_full pktsize buf ch (by omega)]
  · intro pktsize
    have hrep : List.replicate (pktsize + 2 + 10) (0x41 : Nat) =
        0x41 :: List.replicate (pktsize + 11) 0x41 := by
      rw [show pktsize + 2 + 10 = (pktsize + 11) + 1 by omega, List.replicate_succ]
    have hfill := slip_rx_run_fill pktsize 0x41 (by decide) (by decide)
      (pktsize + 11) [0x41]
    have hmin : min (pktsize + 11) (pktsize + 2 - ([(0x41 : Nat)]).length) =
        pktsize + 1 := by
      simp only [List.length_singleton]
      omega
    rw [hmin] at hfill
    have hbuf : (0x41 : Nat) :: List.replicate (pktsize + 1) (0x41 : Nat) =
        List.replicate (pktsize + 2) 0x41 := by
      rw [show pktsize + 2 = (pktsize + 1) + 1 by omega]
      simp [List.replicate_succ]
    have hlast : slip_rx_run pktsize
        ⟨true, false, List.replicate (pktsize + 2) (0x41 : Nat)⟩ [SLIP_END] =
        (⟨false, false, List.replicate (pktsize + 2) 0x41⟩,
         [List.replicate (pktsize + 2) 0x41]) := by
      rw [slip_rx_run_cons, slip_rx_step_normal_end_pos pktsize _ (by simp)]
      simp [slip_rx_run]
    unfold slip_decode slip_rx_init
    rw [hrep, List.cons_append, slip_rx_run_cons,
      slip_rx_step_idle_other pktsize false [] 0x41 (by decide)]
    simp only []
    rw [slip_rx_run_append, hfill]
    simp only [List.singleton_append, hbuf]
    rw [hlast]
    simp

/-- Witness for C5: a step at a concrete state within capacity, and the
truncation scenario at MTU 296. -/
theorem slip_rx_capacity_witness :
    (slip_rx_step 296 ⟨true, false, [0x41]⟩ 0x42).state.rxbuf.length ≤ 296 + 2 ∧
    slip_decode 296 (List.replicate (296 + 2 + 10) 0x41 ++ [SLIP_END]) =
      [List.replicate (296 + 2) 0x41] :=
  ⟨(slip_rx_capacity.1 296 ⟨true, false, [0x41]⟩ 0x42 (by decide)).1,
   slip_rx_capacity.2 296⟩

/-! ## Claim C6 — empty packet and idle suppression -/

/-- C6: a zero-length packet is encoded as exactly the two bytes
`SLIP_END, SLIP_END`, and a stream of N consecutive `SLIP_END` bytes with no
intervening data decodes to zero packets. -/
theorem slip_idle_frames :
    slip_transmit [] = [SLIP_END, SLIP_END] ∧
    ∀ pktsize n : Nat, slip_decode pktsize (List.replicate n SLIP_END) = [] := by
  constructor
  · rfl
  · intro pktsize n
    cases n with
    | zero => rfl
    | succ m =>
      unfold slip_decode slip_rx_init
      rw [List.replicate_succ, slip_rx_run_cons, slip_rx_step_idle_end]
      simp [slip_rx_run_all_ends pktsize m]

/-! ## Claim C7 — unsupported IP version on receive -/

/-- C7: a completed packet whose first-byte version field matches neither
IPv4 nor IPv6 only bumps the RX error counter: no stack input function is
called, nothing is transmitted in reply, and the remaining state (the
`txnodelay` flag, `d_len`) is left as it was. -/
theorem slip_rx_bad_version (ipv4_input ipv6_input : List Nat → List Nat)
    (errors : Nat) (txnd : Bool) (pkt : List Nat)
    (h4 : pkt.headD 0 &&& IP_VERSION_MASK ≠ IPv4_VERSION)
    (h6 : pkt.headD 0 &&& IP_VERSION_MASK ≠ IPv6_VERSION) :
    slip_rxtask_process ipv4_input ipv6_input errors txnd pkt =
      ⟨0, 0, errors + 1, [], txnd, pkt.length⟩ := by
  simp only [slip_rxtask_process]
  rw [if_neg h4, if_neg h6]

/-- Witness for C7 at a concrete version-0 packet and trivial stack
oracles. -/
theorem slip_rx_bad_version_witness :
    slip_rxtask_process (fun _ => []) (fun _ => []) 5 false [0x00, 0x01] =
      ⟨0, 0, 6, [], false, 2⟩ :=
  slip_rx_bad_version (fun _ => []) (fun _ => []) 5 false [0x00, 0x01]
    (by decide) (by decide)

/-! ## Claim C8 — initialization failure paths -/

/-- C8, as stated, is false: when opening the TTY succeeds (fd 3) and
creating the receiver task fails (-12), ` slip_initialize` returns the
negative status but the opened file descriptor is not closed before
returning. -/
theorem slip_c8_counterexample :
    ( slip_initialize 3 (-12) 1).ret < 0 ∧ ( slip_initialize 3 (-12) 1).fdOpen = true := by
  decide

/-- C8 (amended): every failure of ` slip_initialize` returns the negative
status of the failing call to the caller; the open-failure path holds no
resources, but on a task-creation failure the opened serial file descriptor
is left open (and when the TX task fails the RX task is left running) —
partially-started resources are not released. -/
theorem slip_initialize_failure (openRet rxRet txRet : Int) :
    (openRet < 0 →
      slip_initialize openRet rxRet txRet = ⟨openRet, false, false, false, false⟩) ∧
    (0 ≤ openRet → rxRet < 0 →
      slip_initialize openRet rxRet txRet = ⟨rxRet, true, false, false, false⟩) ∧
    (0 ≤ openRet → 0 ≤ rxRet → txRet < 0 →
      slip_initialize openRet rxRet txRet = ⟨txRet, true, true, false, false⟩) := by
  refine ⟨fun h => ?_, fun h1 h2 => ?_, fun h1 h2 h3 => ?_⟩
  · simp [ slip_initialize, h]
  · simp [ slip_initialize, h2, show ¬ openRet < 0 by omega]
  · simp [ slip_initialize, h3, show ¬ openRet < 0 by omega, show ¬ rxRet < 0 by omega]

/-- Witness for C8: RX task creation failing with -12 after the TTY opened
as fd 3. -/
theorem slip_initialize_failure_witness :
    slip_initialize 3 (-12) 1 = ⟨-12, true, false, false, false⟩ :=
  ( slip_initialize_failure 3 (-12) 1).2.1 (by decide) (by decide)

/-! ## Claim C9 — TX-available notification -/

/-- C9, as stated, is false: with the interface down and `txnodelay` clear,
`slip_txavail` neither sets the flag nor signals the TX task — the
notification is ignored. -/
theorem slip_c9_counterexample :
    (slip_txavail ⟨false, false⟩).1.txnodelay = false ∧
    (slip_txavail ⟨false, false⟩).2 = false := by
  decide

/-- C9 (amended): `slip_txavail` sets `txnodelay` and wakes the TX task
exactly when the interface is up; when the interface is down the state is
untouched and no signal is sent.  The interface flag itself is never
changed. -/
theorem slip_txavail_spec (s : LinkState) :
    (slip_txavail s).1.txnodelay = (s.bifup || s.txnodelay) ∧
    (slip_txavail s).2 = s.bifup ∧
    (slip_txavail s).1.bifup = s.bifup := by
  obtain ⟨b, t⟩ := s
  cases b <;> simp [slip_txavail]

/-! ## Claim C10 — transmit schedules an immediate follow-up poll -/

/-- C10: a completed `slip_transmit` leaves `txnodelay` set, so the next
`slip_txtask` iteration clears the flag and proceeds with zero sleep, and —
the interface being up, as it is whenever the driver transmits — that
iteration performs a poll of the network stack. -/
theorem slip_transmit_schedules_poll (s : LinkState) (h : s.bifup = true) :
    (slip_transmit_post s).txnodelay = true ∧
    slip_txtask_iter (slip_transmit_post s) = (⟨true, false⟩, 0, true) := by
  obtain ⟨b, t⟩ := s
  simp only at h
  subst h
  simp [slip_transmit_post, slip_txtask_iter]

/-- Witness for C10 at the up-and-idle link state. -/
theorem slip_transmit_schedules_poll_witness :
    (slip_transmit_post ⟨true, false⟩).txnodelay = true ∧
    slip_txtask_iter (slip_transmit_post ⟨true, false⟩) = (⟨true, false⟩, 0, true) :=
  slip_transmit_schedules_poll ⟨true, false⟩ rfl
